import Mathlib

/-! Verification of the NegativeViwer pixel pipeline (src/src/App.tsx).

The per-channel transform `applyFilters` is embedded over the rationals;
the JavaScript `Math.pow` used by the midtone stage is passed in as an
abstract function `pw : ℚ → ℚ → ℚ` (every claim either fixes the midtone
strength to 0, where the stage is skipped, or holds for arbitrary `pw`).
The final write into a `Uint8ClampedArray` is modelled by the ECMAScript
`ToUint8Clamp` conversion (clamp to [0,255], round half to even).
-/

namespace NegativeViwer

/-- One RGBA pixel of an `ImageData` buffer; each channel is a byte value. -/
structure Pixel where
  r : ℕ
  g : ℕ
  b : ℕ
  a : ℕ
  deriving Repr, DecidableEq

/-- The film-base mask color sampled from the preview buffer
(`baseColor` state in App.tsx); channels are byte values. -/
structure BaseColor where
  r : ℕ
  g : ℕ
  b : ℕ
  deriving Repr, DecidableEq

/-- The `Settings` interface of App.tsx: brightness, contrast and the
per-channel shadow / midtone / highlight offsets. -/
structure Settings where
  brightness : ℚ
  contrast : ℚ
  rShadow : ℚ
  gShadow : ℚ
  bShadow : ℚ
  rMid : ℚ
  gMid : ℚ
  bMid : ℚ
  rHigh : ℚ
  gHigh : ℚ
  bHigh : ℚ
  deriving Repr, DecidableEq

/-- Stage A of `applyFilters`: mask removal plus exposure compensation,
`v = base > 10 ? (v / base) * 255 * baseExposure : v`. -/
def maskExposureStage (base : ℕ) (baseExposure v : ℚ) : ℚ :=
  if 10 < base then v / base * 255 * baseExposure else v

/-- Stage B of `applyFilters`: inversion, `v = 255 - v`. -/
def invertStage (v : ℚ) : ℚ := 255 - v

/-- Stage C, first part: additive shadow offset, `v += shadow`. -/
def shadowStage (shadow v : ℚ) : ℚ := v + shadow

/-- Stage C, second part: multiplicative highlight gain,
`v *= (1 + high / 100)`. -/
def highlightStage (high v : ℚ) : ℚ := v * (1 + high / 100)

/-- Stage C, third part: midtone power curve,
`if (mid !== 0) v = 255 * Math.pow(Math.max(0, v / 255), 1 / (1 + mid / 50))`;
`pw` stands for `Math.pow`. -/
def midtoneStage (pw : ℚ → ℚ → ℚ) (mid v : ℚ) : ℚ :=
  if mid ≠ 0 then 255 * pw (max 0 (v / 255)) (1 / (1 + mid / 50)) else v

/-- Stage D of `applyFilters`: brightness, `v *= brightness`. -/
def brightnessStage (brightness v : ℚ) : ℚ := v * brightness

/-- Stage E of `applyFilters`: contrast around mid-gray,
`v = contrast * (v - 128) + 128`. -/
def contrastStage (contrast v : ℚ) : ℚ := contrast * (v - 128) + 128

/-- The full per-channel transform of `applyFilters`, stages A through E
in source order. -/
def applyFilterChannel (pw : ℚ → ℚ → ℚ) (base : ℕ) (baseExposure : ℚ)
    (shadow high mid brightness contrast : ℚ) (v : ℚ) : ℚ :=
  contrastStage contrast
    (brightnessStage brightness
      (midtoneStage pw mid
        (highlightStage high
          (shadowStage shadow
            (invertStage
              (maskExposureStage base baseExposure v))))))

/-- ECMAScript `ToUint8Clamp`: the conversion applied when a number is
written into a `Uint8ClampedArray` element (`newData[i] = r`): clamp to
[0,255] and round to the nearest integer, ties to even. -/
def toUint8Clamp (x : ℚ) : ℕ :=
  if x ≤ 0 then 0
  else if 255 ≤ x then 255
  else if ((⌊x⌋).toNat : ℚ) + 1/2 < x then (⌊x⌋).toNat + 1
  else if x < ((⌊x⌋).toNat : ℚ) + 1/2 then (⌊x⌋).toNat
  else if (⌊x⌋).toNat % 2 = 0 then (⌊x⌋).toNat else (⌊x⌋).toNat + 1

/-- The body of the `applyFilters` loop for one pixel: R, G and B are run
through `applyFilterChannel` with that channel's parameters and written
back through the clamped-array conversion; alpha (`newData[i+3]`) is
never written, so it keeps the copied source value. -/
def applyFiltersPixel (pw : ℚ → ℚ → ℚ) (baseColor : BaseColor)
    (baseExposure : ℚ) (settings : Settings) (p : Pixel) : Pixel :=
  { r := toUint8Clamp (applyFilterChannel pw baseColor.r baseExposure
            settings.rShadow settings.rHigh settings.rMid
            settings.brightness settings.contrast p.r)
    g := toUint8Clamp (applyFilterChannel pw baseColor.g baseExposure
            settings.gShadow settings.gHigh settings.gMid
            settings.brightness settings.contrast p.g)
    b := toUint8Clamp (applyFilterChannel pw baseColor.b baseExposure
            settings.bShadow settings.bHigh settings.bMid
            settings.brightness settings.contrast p.b)
    a := p.a }

/-- `applyFilters`: copies the source data into a fresh buffer and runs
the per-pixel transform over every pixel, returning the new buffer. -/
def applyFilters (pw : ℚ → ℚ → ℚ) (baseColor : BaseColor)
    (baseExposure : ℚ) (settings : Settings) (sourceData : List Pixel) :
    List Pixel :=
  sourceData.map (applyFiltersPixel pw baseColor baseExposure settings)

/-- The neutral settings of claim C1: Brightness 1, Contrast 1, every
shadow, midtone and highlight offset 0. -/
def neutralSettings : Settings :=
  { brightness := 1, contrast := 1
    rShadow := 0, gShadow := 0, bShadow := 0
    rMid := 0, gMid := 0, bMid := 0
    rHigh := 0, gHigh := 0, bHigh := 0 }

lemma toUint8Clamp_natCast (n : ℕ) (h : n ≤ 255) : toUint8Clamp (n : ℚ) = n := by
  unfold toUint8Clamp
  rcases Nat.eq_zero_or_pos n with h0 | h0
  · subst h0; simp
  · have hn0 : ¬ ((n : ℚ) ≤ 0) := by
      push_neg
      exact_mod_cast h0
    rcases eq_or_lt_of_le h with h255 | h255
    · subst h255; simp
    · have hn255 : ¬ ((255 : ℚ) ≤ (n : ℚ)) := by
        push_neg
        exact_mod_cast h255
      simp only [hn0, if_false, hn255]
      have hf : (⌊(n : ℚ)⌋).toNat = n := by
        rw [Int.floor_natCast]
        exact Int.toNat_natCast n
      rw [hf]
      have h1 : ¬ ((n : ℚ) + 1/2 < (n : ℚ)) := by norm_num
      have h2 : (n : ℚ) < (n : ℚ) + 1/2 := by norm_num
      simp [h1, h2]

lemma applyFilterChannel_neutral (pw : ℚ → ℚ → ℚ) (base : ℕ)
    (hbase : base ≤ 10) (v : ℚ) :
    applyFilterChannel pw base 1 0 0 0 1 1 v = 255 - v := by
  have hb : ¬ (10 < base) := by omega
  simp [applyFilterChannel, maskExposureStage, invertStage, shadowStage,
    highlightStage, midtoneStage, brightnessStage, contrastStage, hb]

/-- Claim C1: with all shadow/midtone/highlight offsets 0, Brightness 1,
Contrast 1, Exposure 1 and every BaseColor channel at most 10, the
pipeline reduces to pure inversion: every output pixel is
(255 − r, 255 − g, 255 − b) with alpha preserved. -/
theorem pipeline_neutral_is_inversion (pw : ℚ → ℚ → ℚ) (baseColor : BaseColor)
    (hr : baseColor.r ≤ 10) (hg : baseColor.g ≤ 10) (hb : baseColor.b ≤ 10)
    (sourceData : List Pixel)
    (hbytes : ∀ p ∈ sourceData, p.r ≤ 255 ∧ p.g ≤ 255 ∧ p.b ≤ 255) :
    applyFilters pw baseColor 1 neutralSettings sourceData =
      sourceData.map (fun p => ⟨255 - p.r, 255 - p.g, 255 - p.b, p.a⟩) := by
  unfold applyFilters
  apply List.map_congr_left
  intro p hp
  obtain ⟨hpr, hpg, hpb⟩ := hbytes p hp
  unfold applyFiltersPixel neutralSettings
  have inv : ∀ n : ℕ, n ≤ 255 → (255 : ℚ) - n = ((255 - n : ℕ) : ℚ) := by
    intro n hn
    push_cast [hn]
    ring
  simp only [applyFilterChannel_neutral pw _ hr, applyFilterChannel_neutral pw _ hg,
    applyFilterChannel_neutral pw _ hb]
  rw [inv p.r hpr, inv p.g hpg, inv p.b hpb,
    toUint8Clamp_natCast _ (by omega), toUint8Clamp_natCast _ (by omega),
    toUint8Clamp_natCast _ (by omega)]

/-- Witness for C1: the neutral pipeline on a one-pixel buffer with
BaseColor (0,0,0) inverts (200,120,90) to (55,135,165). -/
theorem pipeline_neutral_is_inversion_witness :
    applyFilters (fun _ _ => 0) ⟨0, 0, 0⟩ 1 neutralSettings
      [⟨200, 120, 90, 255⟩] = [⟨55, 135, 165, 255⟩] := by
  rw [pipeline_neutral_is_inversion (fun _ _ => 0) ⟨0, 0, 0⟩ (by decide)
    (by decide) (by decide) [⟨200, 120, 90, 255⟩] (by decide)]
  decide

lemma toUint8Clamp_le_255 (x : ℚ) : toUint8Clamp x ≤ 255 := by
  unfold toUint8Clamp
  by_cases h0 : x ≤ 0
  · simp [h0]
  by_cases h255 : (255 : ℚ) ≤ x
  · simp [h0, h255]
  simp only [h0, if_false, h255]
  have hx : x < 255 := lt_of_not_le h255
  have hfl : ⌊x⌋ < 255 := by
    rw [Int.floor_lt]
    exact_mod_cast hx
  have hfn : (⌊x⌋).toNat ≤ 254 := by omega
  split
  · omega
  split
  · omega
  split <;> omega

/-- Claim C3: every R/G/B byte of the pipeline's output lies in [0,255]
(the lower bound holds since channels are naturals, the upper bound by
the final clamped write); intermediate values may leave that range and
are clamped only at the final write: Brightness 2 applied to a post-tone
value of 200 with Contrast 1 reaches 400 before the write and is clamped
to 255, not 400, at the write. -/
theorem pipeline_output_in_range (pw : ℚ → ℚ → ℚ) (baseColor : BaseColor)
    (baseExposure : ℚ) (settings : Settings) (sourceData : List Pixel)
    (p : Pixel)
    (hp : p ∈ applyFilters pw baseColor baseExposure settings sourceData) :
    (p.r ≤ 255 ∧ p.g ≤ 255 ∧ p.b ≤ 255) ∧
      contrastStage 1 (brightnessStage 2 200) = 400 ∧
      toUint8Clamp (contrastStage 1 (brightnessStage 2 200)) = 255 := by
  refine ⟨?_, by norm_num [contrastStage, brightnessStage], ?_⟩
  · unfold applyFilters at hp
    obtain ⟨q, _, hq⟩ := List.mem_map.mp hp
    subst hq
    exact ⟨toUint8Clamp_le_255 _, toUint8Clamp_le_255 _, toUint8Clamp_le_255 _⟩
  · have h400 : contrastStage 1 (brightnessStage 2 200) = 400 := by
      norm_num [contrastStage, brightnessStage]
    rw [h400]
    unfold toUint8Clamp
    norm_num

/-- Witness for C3 at a concrete run: the neutral pipeline on a single
black pixel with BaseColor (0,0,0) outputs (255,255,255), which is in
range, and the concrete brightness example clamps 400 to 255. -/
lemma neutral_base0_pixel :
    applyFiltersPixel (fun _ _ => 0) ⟨0, 0, 0⟩ 1 neutralSettings ⟨0, 0, 0, 0⟩
      = ⟨255, 255, 255, 0⟩ := by
  simp only [applyFiltersPixel, applyFilterChannel, maskExposureStage,
    invertStage, shadowStage, highlightStage, midtoneStage, brightnessStage,
    contrastStage, neutralSettings, toUint8Clamp]
  norm_num

theorem pipeline_output_in_range_witness :
    ((Pixel.mk 255 255 255 0).r ≤ 255 ∧ (Pixel.mk 255 255 255 0).g ≤ 255 ∧
      (Pixel.mk 255 255 255 0).b ≤ 255) ∧
      contrastStage 1 (brightnessStage 2 200) = 400 ∧
      toUint8Clamp (contrastStage 1 (brightnessStage 2 200)) = 255 :=
  pipeline_output_in_range (fun _ _ => 0) ⟨0, 0, 0⟩ 1 neutralSettings
    [⟨0, 0, 0, 0⟩] ⟨255, 255, 255, 0⟩
    (by rw [applyFilters, List.map_cons, neutral_base0_pixel]; exact List.mem_singleton.mpr rfl)

/-- Claim C4: whenever a BaseColor channel is at most 10, the mask
removal + exposure stage leaves that channel unchanged for every
exposure value (the guarded branch never divides by the base). -/
theorem maskExposure_guard (base : ℕ) (baseExposure v : ℚ)
    (h : base ≤ 10) : maskExposureStage base baseExposure v = v := by
  unfold maskExposureStage
  have hb : ¬ (10 < base) := by omega
  simp [hb]

/-- Witness for C4: base 10 with exposure 5 passes 42 through unchanged. -/
theorem maskExposure_guard_witness : maskExposureStage 10 5 42 = 42 :=
  maskExposure_guard 10 5 42 (by decide)

lemma exampleScenario_pixel :
    applyFiltersPixel (fun _ _ => 0) ⟨240, 170, 140⟩ (11/10) neutralSettings
      ⟨200, 120, 90, 255⟩ = ⟨21, 57, 75, 255⟩ := by
  simp only [applyFiltersPixel, applyFilterChannel, maskExposureStage,
    invertStage, shadowStage, highlightStage, midtoneStage, brightnessStage,
    contrastStage, neutralSettings, toUint8Clamp]
  norm_num
  simp
  norm_num

/-- Counterexample for C5: at BaseColor (240,170,140), Exposure 1.1, raw
RGB (200,120,90), all tone offsets 0, Brightness 1, Contrast 1, the
pipeline output is not the claimed (21,57,77): the blue channel's exact
value is 255 − (90/140)·255·1.1 = 2091/28 ≈ 74.68, which rounds to 75. -/
theorem exampleScenario_blue_not_77 :
    applyFilters (fun _ _ => 0) ⟨240, 170, 140⟩ (11/10) neutralSettings
      [⟨200, 120, 90, 255⟩] ≠ [⟨21, 57, 77, 255⟩] := by
  rw [applyFilters, List.map_cons, exampleScenario_pixel]
  decide

/-- Claim C5 amended: the pipeline at BaseColor (240,170,140),
Exposure 1.1, raw RGB (200,120,90), all tone offsets 0, Brightness 1,
Contrast 1 outputs the integer triple (21, 57, 75). -/
theorem exampleScenario_value :
    applyFilters (fun _ _ => 0) ⟨240, 170, 140⟩ (11/10) neutralSettings
      [⟨200, 120, 90, 255⟩] = [⟨21, 57, 75, 255⟩] := by
  rw [applyFilters, List.map_cons, exampleScenario_pixel]
  rfl

/-- Claim C8: with midtone strength 0 and all other parameters fixed,
the delta the highlight stage adds at gain 2h is exactly twice the delta
it adds at gain h, for every post-shadow-stage value v. -/
theorem highlight_linearity (high v : ℚ) :
    highlightStage (2 * high) v - v = 2 * (highlightStage high v - v) := by
  unfold highlightStage
  ring

/-- Claim C10: the pipeline copies every pixel's alpha byte unchanged
from source to output. -/
theorem pipeline_preserves_alpha (pw : ℚ → ℚ → ℚ) (baseColor : BaseColor)
    (baseExposure : ℚ) (settings : Settings) (sourceData : List Pixel) :
    (applyFilters pw baseColor baseExposure settings sourceData).map Pixel.a
      = sourceData.map Pixel.a := by
  unfold applyFilters
  rw [List.map_map]
  apply List.map_congr_left
  intro p _
  rfl

/-- The application state relevant to the pipeline: the two cached
original buffers (`previewDataRef`, `fullResDataRef`), the displayed
preview result, and the parameter snapshot (`baseColor`, `baseExposure`,
`settings`, `isPickingBase`). -/
structure AppState where
  previewData : Option (List Pixel)
  fullResData : Option (List Pixel)
  displayed : Option (List Pixel)
  baseColor : BaseColor
  baseExposure : ℚ
  settings : Settings
  isPickingBase : Bool

/-- A settings update from the UI: the parameter snapshot is replaced
wholesale; nothing else changes. -/
def setSettings (s : AppState) (newSettings : Settings) : AppState :=
  { s with settings := newSettings }

/-- `processPreview`: if no preview original is cached the call returns
without effect; otherwise `applyFilters` is run against the cached
preview original with the current parameter snapshot and the result
replaces the displayed buffer. -/
def processPreview (pw : ℚ → ℚ → ℚ) (s : AppState) : AppState :=
  match s.previewData with
  | none => s
  | some data =>
      { s with
          displayed :=
            some (applyFilters pw s.baseColor s.baseExposure s.settings data) }

/-- `handleSave`: if no full-resolution original is cached the call
returns without producing output; otherwise `applyFilters` runs once
against the full-resolution original and the result is the export
payload (second component); the application state is untouched. -/
def handleSave (pw : ℚ → ℚ → ℚ) (s : AppState) :
    AppState × Option (List Pixel) :=
  match s.fullResData with
  | none => (s, none)
  | some data =>
      (s, some (applyFilters pw s.baseColor s.baseExposure s.settings data))

/-- `handlePointerUp`: when base-picking is active and a preview buffer
exists, the linear pixel offset `y * width + x` is computed; if the
offset lands inside the buffer (`data[index] !== undefined`), BaseColor
is set to the RGB triple at that offset and picking mode ends; otherwise
nothing changes. -/
def handlePointerUp (s : AppState) (x y : ℤ) (w : ℕ) : AppState :=
  if s.isPickingBase = false then s
  else
    match s.previewData with
    | none => s
    | some data =>
        if h : 0 ≤ y * (w : ℤ) + x ∧ (y * (w : ℤ) + x).toNat < data.length then
          { s with
              baseColor := ⟨(data.get ⟨(y * (w : ℤ) + x).toNat, h.2⟩).r,
                            (data.get ⟨(y * (w : ℤ) + x).toNat, h.2⟩).g,
                            (data.get ⟨(y * (w : ℤ) + x).toNat, h.2⟩).b⟩,
              isPickingBase := false }
        else s

/-- Claim C2: the pipeline is a pure function of the original buffer and
the parameter snapshot: a second run with unchanged parameters leaves
the whole state fixed (byte-identical displayed output), and running
with settings A, then B, then A again — always against the original
buffer — displays exactly the bytes of a single fresh run with A. -/
theorem pipeline_pure_no_drift (pw : ℚ → ℚ → ℚ) (s : AppState)
    (A B : Settings) :
    processPreview pw (processPreview pw s) = processPreview pw s ∧
      (processPreview pw (setSettings (processPreview pw
          (setSettings (processPreview pw (setSettings s A)) B)) A)).displayed
        = (processPreview pw (setSettings s A)).displayed := by
  constructor
  · cases h : s.previewData with
    | none => simp [processPreview, h]
    | some data => simp [processPreview, h]
  · cases h : s.previewData with
    | none => simp [processPreview, setSettings, h]
    | some data => simp [processPreview, setSettings, h]

/-- Claim C6: a pipeline run never mutates the cached original buffers:
after a preview run or an export both `previewData` and `fullResData`
hold exactly the bytes they held before; only the derived output is
(re)placed. -/
theorem run_preserves_originals (pw : ℚ → ℚ → ℚ) (s : AppState) :
    (processPreview pw s).previewData = s.previewData ∧
      (processPreview pw s).fullResData = s.fullResData ∧
      (handleSave pw s).1.previewData = s.previewData ∧
      (handleSave pw s).1.fullResData = s.fullResData := by
  have h1 : (processPreview pw s).previewData = s.previewData := by
    cases h : s.previewData <;> simp [processPreview, h]
  have h2 : (processPreview pw s).fullResData = s.fullResData := by
    cases h : s.previewData <;> simp [processPreview, h]
  have h3 : (handleSave pw s).1 = s := by
    cases h : s.fullResData <;> simp [handleSave, h]
  exact ⟨h1, h2, by rw [h3], by rw [h3]⟩

/-- Claim C9: when no full-resolution original exists, export is a clean
no-op: the state is unchanged and no output buffer is produced. -/
theorem handleSave_no_image (pw : ℚ → ℚ → ℚ) (s : AppState)
    (h : s.fullResData = none) : handleSave pw s = (s, none) := by
  simp [handleSave, h]

/-- A concrete state with no image loaded. -/
def emptyState : AppState :=
  { previewData := none, fullResData := none, displayed := none
    baseColor := ⟨240, 170, 140⟩, baseExposure := 11/10
    settings := neutralSettings, isPickingBase := false }

/-- Witness for C9: export on the empty state returns it unchanged with
no payload. -/
theorem handleSave_no_image_witness :
    handleSave (fun _ _ => 0) emptyState = (emptyState, none) :=
  handleSave_no_image (fun _ _ => 0) emptyState rfl

/-- A concrete picking-mode state over a 2×2 preview buffer with four
distinct pixels. -/
def sampleState : AppState :=
  { previewData := some [⟨1, 2, 3, 255⟩, ⟨4, 5, 6, 255⟩,
      ⟨7, 8, 9, 255⟩, ⟨10, 11, 12, 255⟩]
    fullResData := none, displayed := none
    baseColor := ⟨240, 170, 140⟩, baseExposure := 1
    settings := neutralSettings, isPickingBase := true }

/-- Counterexample for C7: in the 2×2 `sampleState` the coordinate
(x,y) = (2,0) is out of range (x = width), so per the claim the sample
request should be ignored; instead the code's offset-only bounds check
accepts linear offset 2 and BaseColor changes from (240,170,140) to
pixel index 2, namely (7,8,9). -/
theorem handlePointerUp_oob_changes_base :
    (handlePointerUp sampleState 2 0 2).baseColor = ⟨7, 8, 9⟩ ∧
      sampleState.baseColor = ⟨240, 170, 140⟩ ∧
      (⟨7, 8, 9⟩ : BaseColor) ≠ ⟨240, 170, 140⟩ := by
  refine ⟨?_, rfl, by decide⟩
  rfl

/-- Claim C7 amended: with picking active over a preview buffer of
width w and height h (length w·h): an in-range coordinate 0 ≤ x < w,
0 ≤ y < h samples linear offset y·w + x and sets BaseColor to exactly
that pixel's RGB triple; a request whose linear offset falls outside
the buffer is ignored (state unchanged); but any request whose linear
offset lands inside the buffer — even from an out-of-range coordinate
such as x = w — sets BaseColor from that offset. -/
theorem handlePointerUp_contract (s : AppState) (data : List Pixel)
    (w h : ℕ) (hpick : s.isPickingBase = true)
    (hprev : s.previewData = some data) (hlen : data.length = w * h) :
    (∀ x y : ℕ, x < w → y < h →
      ∃ hin : y * w + x < data.length,
        (handlePointerUp s (x : ℤ) (y : ℤ) w).baseColor =
          ⟨(data.get ⟨y * w + x, hin⟩).r, (data.get ⟨y * w + x, hin⟩).g,
            (data.get ⟨y * w + x, hin⟩).b⟩) ∧
    (∀ x y : ℤ, (y * (w : ℤ) + x < 0 ∨ (data.length : ℤ) ≤ y * (w : ℤ) + x) →
      handlePointerUp s x y w = s) ∧
    (∀ x y : ℤ, 0 ≤ y * (w : ℤ) + x →
      ∀ hin : (y * (w : ℤ) + x).toNat < data.length,
        (handlePointerUp s x y w).baseColor =
          ⟨(data.get ⟨(y * (w : ℤ) + x).toNat, hin⟩).r,
            (data.get ⟨(y * (w : ℤ) + x).toNat, hin⟩).g,
            (data.get ⟨(y * (w : ℤ) + x).toNat, hin⟩).b⟩) := by
  have hpick' : ¬ (s.isPickingBase = false) := by simp [hpick]
  have main : ∀ x y : ℤ, 0 ≤ y * (w : ℤ) + x →
      ∀ hin : (y * (w : ℤ) + x).toNat < data.length,
        (handlePointerUp s x y w).baseColor =
          ⟨(data.get ⟨(y * (w : ℤ) + x).toNat, hin⟩).r,
            (data.get ⟨(y * (w : ℤ) + x).toNat, hin⟩).g,
            (data.get ⟨(y * (w : ℤ) + x).toNat, hin⟩).b⟩ := by
    intro x y hnn hin
    unfold handlePointerUp
    rw [if_neg hpick', hprev]
    dsimp only
    rw [dif_pos ⟨hnn, hin⟩]
  refine ⟨?_, ?_, main⟩
  · intro x y hx hy
    have hin : y * w + x < data.length := by
      have h1 : y * w + x < (y + 1) * w := by
        have : (y + 1) * w = y * w + w := by ring
        omega
      have h2 : (y + 1) * w ≤ h * w := Nat.mul_le_mul_right w (by omega)
      have h3 : h * w = w * h := Nat.mul_comm h w
      omega
    refine ⟨hin, ?_⟩
    have hcast : ((y : ℤ) * (w : ℤ) + (x : ℤ)) = ((y * w + x : ℕ) : ℤ) := by
      push_cast
      ring
    have htn : ((y : ℤ) * (w : ℤ) + (x : ℤ)).toNat = y * w + x := by
      rw [hcast, Int.toNat_natCast]
    have hnn : 0 ≤ (y : ℤ) * (w : ℤ) + (x : ℤ) := by
      rw [hcast]
      exact Int.natCast_nonneg _
    have htn' : ((y : ℤ) * (w : ℤ) + (x : ℤ)).toNat < data.length := by
      rw [htn]
      exact hin
    rw [main x y hnn htn']
    have hget : ∀ hin2 : (↑y * (↑w : ℤ) + ↑x).toNat < data.length,
        data.get ⟨(↑y * (↑w : ℤ) + ↑x).toNat, hin2⟩ = data.get ⟨y * w + x, hin⟩ := by
      intro hin2
      congr 1
    rw [hget htn']
  · intro x y hout
    unfold handlePointerUp
    rw [if_neg hpick', hprev]
    dsimp only
    rw [dif_neg]
    intro hcon
    obtain ⟨hnn, hlt⟩ := hcon
    rcases hout with hneg | hge
    · omega
    · have : (((y * (w : ℤ) + x).toNat : ℤ)) = y * (w : ℤ) + x :=
        Int.toNat_of_nonneg hnn
      omega

/-- Witness for C7: in `sampleState` (2×2), the in-range coordinate
(1,1) sets BaseColor to pixel (1,1) = (10,11,12), and coordinate
(-1,0), whose linear offset -1 is outside the buffer, leaves the state
unchanged. -/
theorem handlePointerUp_contract_witness :
    (handlePointerUp sampleState ((1 : ℕ) : ℤ) ((1 : ℕ) : ℤ) 2).baseColor
        = ⟨10, 11, 12⟩ ∧
      handlePointerUp sampleState (-1) 0 2 = sampleState := by
  obtain ⟨h1, h2, _⟩ := handlePointerUp_contract sampleState
    [⟨1, 2, 3, 255⟩, ⟨4, 5, 6, 255⟩, ⟨7, 8, 9, 255⟩, ⟨10, 11, 12, 255⟩]
    2 2 rfl rfl rfl
  constructor
  · obtain ⟨hin, he⟩ := h1 1 1 (by decide) (by decide)
    rw [he]
    rfl
  · exact h2 (-1) 0 (Or.inl (by decide))

end NegativeViwer
